import Mathlib

/-!
Verification of the Aria G-Assist companion plugin (plugin.py) and its
canvas overlay (canvas_overlay.py) against the repository specification.

The Python sources are shallowly embedded: strings are Lean `String`s
(operated on through their underlying `List Char`, so that all the
definitions reduce in the kernel), file contents are `Option String`
(`none` meaning the file is absent), and each Python function that the
claims mention is translated into a pure Lean function over explicit
state.  Pythons ASCII-relevant `str.lower`/`str.strip` are modelled by
`strLower`/`strTrim`; every concrete input used in the theorems below is
ASCII, where the two agree.
-/

namespace Aria

/-- Model of Python `str.lower` (ASCII case folding, which agrees with
Python on all inputs used in this development). -/
def strLower (s : String) : String := ⟨s.data.map Char.toLower⟩

/-- Model of Python `str.strip`: drop whitespace from both ends. -/
def strTrim (s : String) : String :=
  ⟨((s.data.dropWhile Char.isWhitespace).reverse.dropWhile Char.isWhitespace).reverse⟩

/-- Model of the Python substring test `pat in s`. -/
def strContains (s pat : String) : Bool := decide (pat.data <:+: s.data)

/-- Model of Python `s.startswith(p)`. -/
def strStartsWith (s p : String) : Bool := decide (p.data <+: s.data)

/-- Model of Python `s.endswith(p)`. -/
def strEndsWith (s p : String) : Bool := decide (p.data <:+ s.data)

/-- Python truthiness of an optional string (`None` and `""` are falsy). -/
def pyTruthy (s : Option String) : Bool :=
  match s with
  | none => false
  | some t => t ≠ ""

/- ### Responses (plugin.py lines 345-361)

A response dictionary has an optional `success` key and an optional
`message` key; `generate_message_response` produces a dictionary with no
`success` key at all. -/

/-- A response dictionary as built by plugin.py: optional `success` and
`message` keys. -/
structure Resp where
  success : Option Bool
  message : Option String
deriving DecidableEq

/-- plugin.py `generate_failure_response`: `success: False`, and a
`message` key only when the argument is truthy (a non-empty string). -/
def generate_failure_response (message : Option String) : Resp :=
  ⟨some false, match message with
    | some m => if m = "" then none else some m
    | none => none⟩

/-- plugin.py `generate_success_response`: `success: True`, and a
`message` key only when the argument is truthy. -/
def generate_success_response (message : Option String) : Resp :=
  ⟨some true, match message with
    | some m => if m = "" then none else some m
    | none => none⟩

/-- plugin.py `generate_message_response`: only a `message` key, never a
`success` key. -/
def generate_message_response (message : String) : Resp :=
  ⟨none, some message⟩

/-- JSON serialization of a response dictionary as `json.dumps` renders
it (keys in insertion order: `success` first, then `message`; message
strings in this development contain no characters that `json.dumps`
escapes). -/
def jsonOfResp (r : Resp) : String :=
  let fields :=
    (match r.success with
     | some b => ["\"success\": " ++ (if b then "true" else "false")]
     | none => []) ++
    (match r.message with
     | some m => ["\"message\": \"" ++ m ++ "\""]
     | none => [])
  "\x7b" ++ String.intercalate ", " fields ++ "\x7d"

/-- Serialization of the `response` variable of the main loop, which may
still be Python `None` (rendered `null` by `json.dumps`). -/
def serializeResp : Option Resp → String
  | none => "null"
  | some r => jsonOfResp r

/-- plugin.py `write_response`: serialize and append the literal
terminator `<<END>>`; the returned string is the exact byte sequence
handed to the pipe. -/
def write_response (r : Option Resp) : String :=
  serializeResp r ++ "<<END>>"

/- ### Language settings (plugin.py lines 29-57)

The config file is modelled as `Option String` (`none` = absent). -/

/-- The keys of plugin.py `LANGUAGE_MODES`. -/
def LANGUAGE_MODES : List String := ["turkish", "english", "auto"]

/-- plugin.py `get_language_setting`: read the config file, strip and
lowercase its content, return it when it is a known mode, otherwise
(absent file, unknown token, read error) return `"auto"`. -/
def get_language_setting (file : Option String) : String :=
  match file with
  | some content =>
      let mode := strLower (strTrim content)
      if mode ∈ LANGUAGE_MODES then mode else "auto"
  | none => "auto"

/-- plugin.py `set_language_setting`: when the lowercased mode is known,
overwrite the config file with it and return `True`; otherwise leave the
file untouched and return `False`.  Result: (return value, new file
contents). -/
def set_language_setting (mode : String) (file : Option String) :
    Bool × Option String :=
  if strLower mode ∈ LANGUAGE_MODES then (true, some (strLower mode))
  else (false, file)

/- ### Chat command (plugin.py lines 395-569)

`params` may be Python `None`, a plain string, or a dict; dict values
relevant to input resolution are strings.  The conversation context is a
list whose entries either carry a `content` string (`some c`) or do not
(`none`: a non-dict entry or a dict without a `content` key). -/

/-- The `params` argument of `execute_chat_command`: a plain string or a
mapping (association list, preserving Python dict insertion order). -/
inductive Params where
  | pstr (s : String)
  | pdict (kvs : List (String × String))
deriving DecidableEq

/-- Python truthiness of the `params` argument (`None`, `""` and
`\x7b\x7d` are falsy). -/
def paramsTruthy : Option Params → Bool
  | none => false
  | some (.pstr s) => s ≠ ""
  | some (.pdict kvs) => kvs ≠ []

/-- Lookup of `k in params` / `params[k]` on the association list. -/
def dictLookup (kvs : List (String × String)) (k : String) : Option String :=
  (kvs.find? (fun kv => kv.1 = k)).map (·.2)

/-- The recognized parameter keys tried in order (plugin.py line 438). -/
def RECOGNIZED_KEYS : List String := ["message", "input", "text", "query", "prompt"]

/-- A conversation context: each entry optionally carries a `content`
string. -/
abbrev Ctx := List (Option String)

/-- The value the `for key in [...]` loop of plugin.py lines 438-442
leaves in `user_input`: the value of the first recognized key present in
the mapping (which may be the empty string), or `none` when no
recognized key is present. -/
def firstRecognizedValue (kvs : List (String × String)) : Option String :=
  (RECOGNIZED_KEYS.find? (fun k => (dictLookup kvs k).isSome)).bind (dictLookup kvs)

/-- plugin.py lines 432-447: the value of `user_input` derived from the
`params` argument alone.  A falsy `params` contributes nothing; a string
is taken whole; for a dict, the first recognized key supplies the value,
but when that value is falsy (or no recognized key is present) the first
dict value is used instead. -/
def params_user_input : Option Params → Option String
  | none => none
  | some (.pstr s) => if s = "" then none else some s
  | some (.pdict kvs) =>
      if kvs = [] then none
      else
        match firstRecognizedValue kvs with
        | some v => if v = "" then (kvs.head?.map (·.2)) else some v
        | none => kvs.head?.map (·.2)

/-- plugin.py lines 430-454: resolution of `user_input`.  Returns the
value of the Python variable after all fallbacks (`none` = still
`None`; note the result may be the empty string, which later guards
treat as falsy).  When the params-derived value is falsy and the context
is a non-empty list whose last entry carries a `content` string, that
content replaces the value. -/
def resolve_user_input (params : Option Params) (context : Option Ctx) :
    Option String :=
  let fromParams := params_user_input params
  if pyTruthy fromParams then fromParams
  else
    match context with
    | some ctx =>
        if ctx ≠ [] then
          match ctx.getLast? with
          | some (some content) => some content
          | _ => fromParams
        else fromParams
    | none => fromParams

/-- Overlay-show phrases (plugin.py line 467). -/
def SHOW_PHRASES : List String := ["show", "show yourself", "appear", "come out"]

/-- Overlay-hide phrases (plugin.py line 475). -/
def HIDE_PHRASES : List String := ["hide", "go away", "disappear", "close"]

/-- Turkish language-switch phrases (plugin.py line 481). -/
def TURKISH_PHRASES : List String :=
  ["türkçe konuş", "turkce konus", "speak turkish", "set language turkish"]

/-- English language-switch phrases (plugin.py line 488). -/
def ENGLISH_PHRASES : List String :=
  ["ingilizce konuş", "ingilizce konus", "speak english", "set language english"]

/-- Auto language-switch phrases (plugin.py line 495). -/
def AUTO_PHRASES : List String :=
  ["otomatik dil", "otomatik", "auto language", "automatic", "set language auto"]

/-- Observable outcome of one `execute_chat_command` call: the message
responses written to the pipe during the call (via `write_response`), the
returned response (written afterwards by the main loop), whether the
remote model was invoked, and the language config file afterwards. -/
structure ChatResult where
  written : List Resp
  ret : Resp
  modelCalled : Bool
  langFile : Option String
deriving DecidableEq

/-- plugin.py `execute_chat_command`.  Environment inputs stand for the
effects the claims quantify over: `clientOk` is whether a Gemini client
is configured after auto-initialization (when it is not, the handler
returns a failure whose exact text `clientErrMsg` depends on
`find_api_key`); `showOk` is the result of `show_overlay()`; `stream` is
the sequence of `chunk.text` values of a successful streaming call
(chunks with falsy text are not written, plugin.py line 553).  The
overlay-launch and chat-context side effects of the model path touch no
state the claims mention and are not recorded. -/
def execute_chat_command (clientOk : Bool) (clientErrMsg : String)
    (showOk : Bool) (stream : List String) (langFile : Option String)
    (params : Option Params) (context : Option Ctx) : ChatResult :=
  if ¬clientOk then
    ⟨[], generate_failure_response (some clientErrMsg), false, langFile⟩
  else
    let ui := resolve_user_input params context
    if ¬pyTruthy ui then
      ⟨[], generate_failure_response
        (some "No message provided - DEBUG MODE ACTIVE, check aria_plugin.log"),
       false, langFile⟩
    else
      match ui with
      | none =>
          ⟨[], generate_failure_response
            (some "No message provided - DEBUG MODE ACTIVE, check aria_plugin.log"),
           false, langFile⟩
      | some user_input =>
          if strTrim user_input = "" then
            ⟨[], generate_failure_response (some "Empty user message"), false, langFile⟩
          else
            let user_input_lower := strTrim (strLower user_input)
            if user_input_lower ∈ SHOW_PHRASES then
              ⟨[generate_message_response
                  (if showOk then "Here I am! ^_^"
                   else "I\x27m here with you, even if you can\x27t see me!")],
               generate_success_response none, false, langFile⟩
            else if user_input_lower ∈ HIDE_PHRASES then
              ⟨[generate_message_response
                  "I\x27ll hide for now, but I\x27m still listening! Call me anytime!"],
               generate_success_response none, false, langFile⟩
            else if user_input_lower ∈ TURKISH_PHRASES then
              let r := set_language_setting "turkish" langFile
              ⟨[generate_message_response
                  (if r.1 then "Artık Türkçe konuşacağım! Merhaba senpai!"
                   else "Dil ayarlarında bir problem oldu, ama yine de Türkçe konuşmaya çalışacağım!")],
               generate_success_response none, false, r.2⟩
            else if user_input_lower ∈ ENGLISH_PHRASES then
              let r := set_language_setting "english" langFile
              ⟨[generate_message_response
                  (if r.1 then "I\x27ll speak English now! Hello senpai!"
                   else "Had a problem with language settings, but I\x27ll try to speak English anyway!")],
               generate_success_response none, false, r.2⟩
            else if user_input_lower ∈ AUTO_PHRASES then
              let r := set_language_setting "auto" langFile
              ⟨[generate_message_response
                  (if r.1 then "Artık konuştuğun dilde cevap vereceğim! / I\x27ll respond in your language now!"
                   else "Language setting failed, but I\x27ll try to match your language anyway!")],
               generate_success_response none, false, r.2⟩
            else
              ⟨(stream.filter (fun c => c ≠ "")).map generate_message_response,
               generate_success_response none, true, langFile⟩

/- ### Response accumulation flush (canvas_overlay.py lines 299-320) -/

/-- The tight-join condition of `completeResponse`: the incoming chunk
starts with one of the characters `! ? . , ~ ^ _`, or the accumulated
string ends with a space, or the chunk starts with a space. -/
def tightJoin (full chunk : String) : Bool :=
  strStartsWith chunk "!" || strStartsWith chunk "?" || strStartsWith chunk "." ||
  strStartsWith chunk "," || strStartsWith chunk "~" || strStartsWith chunk "^" ||
  strStartsWith chunk "_" || strEndsWith full " " || strStartsWith chunk " "

/-- One iteration of the joining loop of `completeResponse`. -/
def joinStep (full chunk : String) : String :=
  if tightJoin full chunk then full ++ chunk else full ++ " " ++ chunk

/-- The joining loop of `completeResponse`: the first chunk seeds the
accumulator, each later chunk is appended tight or with a single
space. -/
def smartJoinChunks : List String → String
  | [] => ""
  | c :: cs => cs.foldl joinStep c

/-- canvas_overlay.py `completeResponse` on a non-empty buffer: join the
chunks, then strip the result (the displayed speech-bubble text before
length truncation). -/
def completeResponse (chunks : List String) : String :=
  strTrim (smartJoinChunks chunks)

/- ### Emotion selection (canvas_overlay.py lines 152-199) -/

/-- Anger keywords (first priority, frame 2). -/
def angerWords : List String := ["angry", "mad", "pissed", "furious", "rage", "hate"]

/-- Sadness keywords (second priority, frame 4). -/
def sadWords : List String := ["sad", "sorry", "upset", "disappointed", "depressed", "cry"]

/-- Greeting keywords (third priority, frame 3). -/
def greetWords : List String := ["hello", "hi", "hey", "greetings", "good morning"]

/-- Happiness keywords (fourth priority, frame 1). -/
def happyWords : List String := ["happy", "great", "awesome", "love", "amazing", "win"]

/-- Python `any(word in recent_lines for word in ws)`. -/
def containsAny (s : String) (ws : List String) : Bool :=
  ws.any (fun w => strContains s w)

/-- canvas_overlay.py lines 166-167: the scanned text is the
concatenation of the last 10 log lines, lowercased (`readlines` keeps
the newline of each line; `join` adds no separator). -/
def recentLinesOf (lines : List String) : String :=
  strLower (String.join (lines.drop (lines.length - 10)))

/-- canvas_overlay.py lines 170-196: the sprite frame derived from the
scanned text. -/
def emotionFrame (recent : String) : Nat :=
  if containsAny recent angerWords then 2
  else if containsAny recent sadWords then 4
  else if containsAny recent greetWords then 3
  else if containsAny recent happyWords then 1
  else if strContains recent "response chunk" then 9
  else 0

/-- The specification side of claim C6: an ordered priority table of
(matcher, frame) pairs — anger, sadness, greeting, happiness, chunk
tag — evaluated first-match-wins, with frame 0 (idle) as the default. -/
def emotionPriority : List ((String → Bool) × Nat) :=
  [(fun s => containsAny s angerWords, 2),
   (fun s => containsAny s sadWords, 4),
   (fun s => containsAny s greetWords, 3),
   (fun s => containsAny s happyWords, 1),
   (fun s => strContains s "response chunk", 9)]

/-- First-match-wins evaluation of the priority table. -/
def firstMatchFrame (s : String) : Nat :=
  match emotionPriority.find? (fun pf => pf.1 s) with
  | some pf => pf.2
  | none => 0

/- ### Liveness poll (canvas_overlay.py lines 204-217) -/

/-- Whether the overlay window is still up. -/
inductive OverlayRun where
  | running
  | terminated
deriving DecidableEq

/-- The staleness threshold in seconds (canvas_overlay.py line 210). -/
def STALENESS_THRESHOLD : ℚ := 120

/-- canvas_overlay.py `checkGAssistRunning`, as the state after one
liveness poll of a running overlay.  `logAge` is
`time.time() - os.path.getmtime(log_file)` when the log file exists and
`none` when it does not. -/
def checkGAssistRunning (logAge : Option ℚ) : OverlayRun :=
  match logAge with
  | some age => if age > STALENESS_THRESHOLD then .terminated else .running
  | none => .terminated

/- ### Overlay startup and the lock file (canvas_overlay.py lines 423-451) -/

/-- The shared files both processes touch, plus whether another process
holds the exclusive `msvcrt` byte lock on the lock file. -/
structure OverlayFs where
  lockContent : Option String
  lockHeld : Bool
  logContent : String
  chatContent : Option String
deriving DecidableEq

/-- Result of running `main()` of canvas_overlay.py up to the point
where the window would be created: the file state, and whether the
instance returned early because the lock was held. -/
structure OverlayLaunch where
  fs : OverlayFs
  exitedEarly : Bool
deriving DecidableEq

/-- canvas_overlay.py `main`, lock-acquisition phase.  The call
`open(lock_file_path, "w")` creates the lock file or truncates an
existing one — a byte-range lock held by another process does not block
opening in write mode — so it is modelled as setting the content to the
empty string.  When another instance holds the lock, `msvcrt.locking`
raises `IOError` and the function closes the file and returns; otherwise
the lock is taken and the new PID is written. -/
def overlay_main_start (pid : String) (s : OverlayFs) : OverlayLaunch :=
  let s1 : OverlayFs := { s with lockContent := some "" }
  if s1.lockHeld then
    ⟨s1, true⟩
  else
    ⟨{ s1 with lockContent := some pid, lockHeld := true }, false⟩

/- ### The bridge main loop (plugin.py lines 216-279)

The loop is modelled over a finite list of incoming read results.  What
each dispatched handler returns is abstracted to the response value it
contributes: `initialize` and `shutdown` always return a bare success
response (every path of `execute_initialize_command` and of
`execute_shutdown_command` does), `chat` returns some response `chatResp`
supplied as a parameter, and an unknown function name or a malformed
tool call yields the corresponding failure response.  Only the last
response computed during a request is written (the `response` variable is
overwritten by each tool call). -/

/-- One element of a request's `tool_calls` array: whether the `func`
key is present and its value. -/
structure ToolCall where
  func : Option String
deriving DecidableEq

/-- One iteration's input as `read_command` delivers it: a read/JSON
failure (`None`), a JSON object without `tool_calls`, or a `tool_calls`
array. -/
inductive Request where
  | readErr
  | noToolCalls
  | toolCalls (tcs : List ToolCall)
deriving DecidableEq

/-- The response produced by dispatching one named command
(plugin.py lines 252-263). -/
def dispatchResp (chatResp : Resp) (cmd : String) : Resp :=
  if cmd = "initialize" then generate_success_response none
  else if cmd = "shutdown" then generate_success_response none
  else if cmd = "chat" then chatResp
  else generate_failure_response (some ("Plugin Error! Unknown command: " ++ cmd))

/-- The inner `for tool_call in tool_calls` loop: threads the `cmd` and
`response` variables through the calls and records, in order, the
function names processed.  Returns (processed names, final `cmd`, final
`response`). -/
def processCalls (chatResp : Resp) :
    List ToolCall → String → Option Resp → List String × String × Option Resp
  | [], cmd, resp => ([], cmd, resp)
  | tc :: rest, cmd, _resp =>
      match tc.func with
      | some f =>
          let out := processCalls chatResp rest f (some (dispatchResp chatResp f))
          (f :: out.1, out.2)
      | none =>
          processCalls chatResp rest cmd
            (some (generate_failure_response (some "Plugin Error! Malformed input.")))

/-- The `while cmd != SHUTDOWN_COMMAND` loop, run over a finite list of
read results.  Returns (all function names processed in order, the
responses written in order, whether the loop terminated through the
shutdown break).  A read failure writes nothing (`continue`); any other
request writes exactly one response; after writing, the loop breaks iff
the `cmd` variable ends the iteration equal to `"shutdown"`. -/
def runLoop (chatResp : Resp) (cmd : String) :
    List Request → List String × List (Option Resp) × Bool
  | [] => ([], [], false)
  | .readErr :: rest => runLoop chatResp cmd rest
  | .noToolCalls :: rest =>
      let resp : Option Resp :=
        some (generate_failure_response (some "Plugin Error! Malformed input."))
      if cmd = "shutdown" then ([], [resp], true)
      else
        let out := runLoop chatResp cmd rest
        (out.1, resp :: out.2.1, out.2.2)
  | .toolCalls tcs :: rest =>
      let proc := processCalls chatResp tcs cmd none
      if proc.2.1 = "shutdown" then (proc.1, [proc.2.2], true)
      else
        let out := runLoop chatResp proc.2.1 rest
        (proc.1 ++ out.1, proc.2.2 :: out.2.1, out.2.2)

/-- A whole session: the loop starts with `cmd = ""`
(plugin.py line 234). -/
def runSession (chatResp : Resp) (requests : List Request) :
    List String × List (Option Resp) × Bool :=
  runLoop chatResp "" requests

/- ### The input-resolution order as claim C8 words it

Claim C8 states the fallback (c) applies only "when no recognized key
matches"; the function below follows that wording, to be compared with
`params_user_input`, which is translated from the code. -/

/-- Modelled from the wording of claim C8: (a) plain-text parameters,
(b) the value of the first matching recognized key, (c) the first value
of the mapping only when no recognized key matches, (d) the content of
the last conversation-context entry when the previous steps produced
nothing. -/
def resolve_user_input_claimed (params : Option Params) (context : Option Ctx) :
    Option String :=
  let fromParams : Option String :=
    match params with
    | none => none
    | some (.pstr s) => some s
    | some (.pdict kvs) =>
        match firstRecognizedValue kvs with
        | some v => some v
        | none => kvs.head?.map (·.2)
  match fromParams with
  | some v => some v
  | none =>
      match context with
      | some ctx =>
          match ctx.getLast? with
          | some (some content) => some content
          | _ => none
      | none => none

/- ### Helper lemmas about whitespace, trimming and lowercasing -/

/-- ASCII lowercasing fixes every whitespace character. -/
theorem Char.toLower_of_isWhitespace (c : Char) (h : c.isWhitespace = true) :
    c.toLower = c := by
  simp only [Char.isWhitespace, Bool.or_eq_true, decide_eq_true_eq] at h
  rcases h with ((h | h) | h) | h <;> subst h <;> decide

/-- A string whose trim is empty consists of whitespace only. -/
theorem all_whitespace_of_strTrim_empty (s : String) (h : strTrim s = "") :
    ∀ c ∈ s.data, c.isWhitespace = true := by
  have hdata : (strTrim s).data = [] := by rw [h]
  simp only [strTrim, List.reverse_eq_nil_iff, List.dropWhile_eq_nil_iff,
    List.mem_reverse] at hdata
  intro c hc
  have hsplit := List.takeWhile_append_dropWhile (p := Char.isWhitespace) (l := s.data)
  rw [← hsplit] at hc
  rcases List.mem_append.mp hc with hc | hc
  · exact List.mem_takeWhile_imp hc
  · exact hdata c hc

/-- Lowercasing a whitespace-only string changes nothing. -/
theorem strLower_eq_self_of_strTrim_empty (s : String) (h : strTrim s = "") :
    strLower s = s := by
  have hws := all_whitespace_of_strTrim_empty s h
  cases s with
  | mk data =>
      simp only [strLower]
      congr 1
      calc data.map Char.toLower
          = data.map id := List.map_congr_left fun c hc =>
            Char.toLower_of_isWhitespace c (hws c hc)
        _ = data := List.map_id data

/-- Trimming after lowercasing leaves a whitespace-only string empty. -/
theorem strTrim_strLower_of_strTrim_empty (s : String) (h : strTrim s = "") :
    strTrim (strLower s) = "" := by
  rw [strLower_eq_self_of_strTrim_empty s h, h]

/- ### Claim theorems -/

/-- Claim C1, counterexample.  A request whose `tool_calls` array is
`[shutdown, chat]` dispatches `chat` after `shutdown` (the `for` loop
runs to the end of the array), and the session does not terminate at
that request (the `cmd` variable ends the iteration as `"chat"`, so the
shutdown break never fires) — refuting that the shutdown command is
always the last command processed. -/
theorem C1_counterexample :
    runSession (generate_success_response none)
      [.toolCalls [⟨some "shutdown"⟩, ⟨some "chat"⟩]] =
      (["shutdown", "chat"], [some (generate_success_response none)], false) := by
  decide

/-- Claim C2, counterexample.  The per-chunk message response written
for the intercepted phrase "show yourself" carries no `success` field at
all (`generate_message_response` builds a dict with only a `message`
key), refuting that every written response contains a boolean
`success`. -/
theorem C2_counterexample :
    ((execute_chat_command true "e" true [] none
        (some (.pstr "show yourself")) none).written.map Resp.success) = [none] := by
  decide

/-- Claim C3, counterexample.  When no Gemini client is configured, the
chat handler returns a failure response before ever looking at the user
input: the phrase "show yourself" then yields zero message responses and
a failure status rather than one message response plus a success
status. -/
theorem C3_counterexample :
    execute_chat_command false "Gemini API not configured: No API key file found" true []
      none (some (.pstr "show yourself")) none =
      ⟨[], generate_failure_response
        (some "Gemini API not configured: No API key file found"), false, none⟩ := by
  decide

/-- Claim C4, counterexample.  A second overlay instance opens the lock
file with mode `"w"`, truncating it, before the lock attempt fails: the
lock file's content (the first instance's PID record) is modified even
though the instance exits early. -/
theorem C4_counterexample :
    overlay_main_start "4242" ⟨some "1234", true, "log line", some "chat"⟩ =
      ⟨⟨some "", true, "log line", some "chat"⟩, true⟩ ∧
    (some "" : Option String) ≠ some "1234" := by
  decide

/-- Claim C5, counterexample.  The chunk `";)"` starts with punctuation,
yet the flush inserts a space before it: the tight-join character set of
the code is exactly `! ? . , ~ ^ _` plus the space, not punctuation in
general. -/
theorem C5_counterexample :
    completeResponse ["Hi", ";)"] = "Hi ;)" ∧
    completeResponse ["Hi", ";)"] ≠ "Hi;)" := by
  decide

/-- Claim C8, counterexample.  For `params = {foo: "bar", message: ""}`
the claim's priority order binds the input to `""` (the first recognized
key, `message`) and so predicts a failure response with no remote call;
the code instead falls through to the first dict value `"bar"` and
invokes the remote model. -/
theorem C8_counterexample :
    resolve_user_input_claimed (some (.pdict [("foo", "bar"), ("message", "")])) none =
      some "" ∧
    resolve_user_input (some (.pdict [("foo", "bar"), ("message", "")])) none =
      some "bar" ∧
    (execute_chat_command true "e" true ["Hi!"] none
      (some (.pdict [("foo", "bar"), ("message", "")])) none).modelCalled = true := by
  decide

/-- Claim C2 (amended): every response written to the host is the JSON
serialization of its dictionary followed by the literal terminator
`<<END>>`; final status responses carry a boolean `success` (and an
optional `message`), while per-chunk message responses carry only a
`message` field and no `success` field. -/
theorem C2_theorem :
    (∀ m : Option String, (generate_success_response m).success = some true) ∧
    (∀ m : Option String, (generate_failure_response m).success = some false) ∧
    (∀ s : String, (generate_message_response s).success = none ∧
      (generate_message_response s).message = some s) ∧
    write_response (some (generate_success_response none)) =
      "\x7b\"success\": true\x7d<<END>>" ∧
    write_response (some (generate_failure_response (some "Plugin Error! Malformed input."))) =
      "\x7b\"success\": false, \"message\": \"Plugin Error! Malformed input.\"\x7d<<END>>" ∧
    write_response (some (generate_message_response "Hi")) =
      "\x7b\"message\": \"Hi\"\x7d<<END>>" ∧
    (∀ r : Option Resp, ∃ body, write_response r = body ++ "<<END>>") := by
  refine ⟨fun _ => rfl, fun _ => rfl, fun s => ⟨rfl, rfl⟩, by decide, by decide, by decide,
    fun r => ⟨serializeResp r, rfl⟩⟩

/-- Claim C4 (amended): when another instance holds the exclusive lock,
a newly started overlay instance exits before creating its window,
leaving the log file, the chat-context file and the held lock
undisturbed; the lock file itself, however, is truncated to empty by the
open-for-write that precedes the failed lock attempt. -/
theorem C4_theorem (pid : String) (s : OverlayFs) (h : s.lockHeld = true) :
    overlay_main_start pid s =
      ⟨⟨some "", s.lockHeld, s.logContent, s.chatContent⟩, true⟩ := by
  cases s with
  | mk lc lh log chat =>
      simp only at h
      simp [overlay_main_start, h]

/-- Witness for C4: a concrete held-lock state. -/
theorem C4_witness :
    overlay_main_start "7" ⟨some "99", true, "L", none⟩ =
      ⟨⟨some "", true, "L", none⟩, true⟩ :=
  C4_theorem "7" ⟨some "99", true, "L", none⟩ rfl

/-- Claim C7: language mode round-trips — writing any mode whose
lowercase form is one of turkish/english/auto and reading it back yields
that lowercased mode; reading an absent file or any unrecognized token
yields `"auto"`; every read returns one of the three enumerated modes. -/
theorem C7_theorem :
    (∀ (m : String) (f : Option String), strLower m ∈ LANGUAGE_MODES →
      get_language_setting (set_language_setting m f).2 = strLower m) ∧
    (∀ f : Option String, get_language_setting f ∈ LANGUAGE_MODES) ∧
    get_language_setting none = "auto" ∧
    (∀ content : String, strLower (strTrim content) ∉ LANGUAGE_MODES →
      get_language_setting (some content) = "auto") := by
  refine ⟨?_, ?_, rfl, ?_⟩
  · intro m f h
    have hset : (set_language_setting m f).2 = some (strLower m) := by
      simp [set_language_setting, h]
    rw [hset]
    simp only [LANGUAGE_MODES, List.mem_cons, List.not_mem_nil, or_false] at h
    rcases h with h | h | h <;> rw [h] <;> decide
  · intro f
    cases f with
    | none => decide
    | some content =>
        by_cases h : strLower (strTrim content) ∈ LANGUAGE_MODES
        · simp only [get_language_setting, if_pos h]
          exact h
        · simp only [get_language_setting, if_neg h]
          decide
  · intro content h
    simp [get_language_setting, h]

/-- Witness for C7: writing `"TURKISH"` then reading yields
`"turkish"`, and reading an unrecognized token yields `"auto"`. -/
theorem C7_witness :
    get_language_setting (set_language_setting "TURKISH" none).2 = strLower "TURKISH" ∧
    get_language_setting (some "klingon") = "auto" :=
  ⟨C7_theorem.1 "TURKISH" none (by decide), C7_theorem.2.2.2 "klingon" (by decide)⟩

/-- Claim C9: one liveness poll of a running overlay terminates it
exactly when the log file is missing or its age exceeds the 120-second
staleness threshold, and keeps it running exactly when the log file
exists with age at most the threshold. -/
theorem C9_theorem (a : Option ℚ) :
    (checkGAssistRunning a = .terminated ↔
      a = none ∨ ∃ q, a = some q ∧ STALENESS_THRESHOLD < q) ∧
    (checkGAssistRunning a = .running ↔ ∃ q, a = some q ∧ q ≤ STALENESS_THRESHOLD) := by
  cases a with
  | none => simp [checkGAssistRunning]
  | some q =>
      by_cases h : STALENESS_THRESHOLD < q
      · simp [checkGAssistRunning, h, le_of_lt, not_le.mpr h]
      · simp [checkGAssistRunning, h, not_lt.mp h]

/-- Claim C10: setting a mode whose lowercase form is not one of the
three recognized modes returns `False` and leaves the config file
unchanged, so a subsequent read returns the same mode as before. -/
theorem C10_theorem (m : String) (f : Option String)
    (h : strLower m ∉ LANGUAGE_MODES) :
    set_language_setting m f = (false, f) ∧
    get_language_setting (set_language_setting m f).2 = get_language_setting f := by
  have hset : set_language_setting m f = (false, f) := by
    simp [set_language_setting, h]
  exact ⟨hset, by rw [hset]⟩

/-- Witness for C10: a concrete invalid mode over a concrete config
file. -/
theorem C10_witness :
    set_language_setting "Klingon" (some "english") = (false, some "english") ∧
    get_language_setting (set_language_setting "Klingon" (some "english")).2 =
      get_language_setting (some "english") :=
  C10_theorem "Klingon" (some "english") (by decide)

/-- When the last tool call of a request names `shutdown`, the inner
`for` loop leaves `cmd = "shutdown"` and `response` equal to the
shutdown handler's bare success response, whatever preceded it. -/
theorem processCalls_last_shutdown (chatResp : Resp) :
    ∀ (tcs : List ToolCall) (cmd : String) (resp : Option Resp),
      tcs.getLast? = some ⟨some "shutdown"⟩ →
      (processCalls chatResp tcs cmd resp).2 =
        ("shutdown", some (generate_success_response none)) := by
  intro tcs
  induction tcs with
  | nil => intro cmd resp h; simp at h
  | cons tc rest ih =>
      intro cmd resp h
      cases rest with
      | nil =>
          simp only [List.getLast?_singleton, Option.some_inj] at h
          subst h
          simp [processCalls, dispatchResp, generate_success_response]
      | cons tc2 rest2 =>
          rw [List.getLast?_cons_cons] at h
          cases hf : tc.func with
          | some f =>
              simp only [processCalls, hf]
              exact ih f (some (dispatchResp chatResp f)) h
          | none =>
              simp only [processCalls, hf]
              exact ih cmd
                (some (generate_failure_response (some "Plugin Error! Malformed input."))) h

/-- Claim C1 (amended): the loop terminates after a request exactly when
`shutdown` is the last tool call processed in that request, and then
only after writing that request's single response — the shutdown
success response; later requests are never read.  Tool calls placed
after a `shutdown` call within the same request are still dispatched,
and when the request's last call is not `shutdown` the session
continues (see the counterexample). -/
theorem C1_theorem (chatResp : Resp) (cmd : String) (tcs : List ToolCall)
    (rest : List Request) (h : tcs.getLast? = some ⟨some "shutdown"⟩) :
    runLoop chatResp cmd (.toolCalls tcs :: rest) =
      ((processCalls chatResp tcs cmd none).1,
       [some (generate_success_response none)], true) := by
  have h2 := processCalls_last_shutdown chatResp tcs cmd none h
  have h21 : (processCalls chatResp tcs cmd none).2.1 = "shutdown" := by rw [h2]
  have h22 : (processCalls chatResp tcs cmd none).2.2 =
      some (generate_success_response none) := by rw [h2]
  simp [runLoop, h21, h22]

/-- Witness for C1: a session whose first request ends with `shutdown`
processes exactly that request's calls, writes one success response and
terminates, never reading the pending second request. -/
theorem C1_witness :
    runLoop (generate_success_response none) ""
      [.toolCalls [⟨some "chat"⟩, ⟨some "shutdown"⟩], .toolCalls [⟨some "chat"⟩]] =
      (["chat", "shutdown"], [some (generate_success_response none)], true) :=
  (C1_theorem (generate_success_response none) "" [⟨some "chat"⟩, ⟨some "shutdown"⟩]
    [.toolCalls [⟨some "chat"⟩]] (by decide)).trans (by decide)

/-- With a configured client, a resolved non-falsy, non-whitespace input
whose lowercased trim is a show phrase takes the show-overlay branch:
one message response (its text depending on whether the overlay launch
succeeded), a success status, no model call, language file untouched. -/
theorem execute_chat_command_show (em : String) (showOk : Bool) (stream : List String)
    (lf : Option String) (p : Option Params) (c : Option Ctx) (ui : String)
    (hres : resolve_user_input p c = some ui) (hui : ui ≠ "")
    (htrim : strTrim ui ≠ "") (hshow : strTrim (strLower ui) ∈ SHOW_PHRASES) :
    execute_chat_command true em showOk stream lf p c =
      ⟨[generate_message_response
          (if showOk then "Here I am! ^_^"
           else "I\x27m here with you, even if you can\x27t see me!")],
       generate_success_response none, false, lf⟩ := by
  simp [execute_chat_command, hres, pyTruthy, hui, htrim, hshow]

/-- Claim C3 (amended): provided a Gemini client is configured (the
handler otherwise fails before reading the input), every chat command
whose extracted input lowercases and trims to "show yourself" never
invokes the remote model and emits exactly one message response followed
by exactly one success status. -/
theorem C3_theorem (em : String) (showOk : Bool) (stream : List String)
    (lf : Option String) (p : Option Params) (c : Option Ctx) (ui : String)
    (hres : resolve_user_input p c = some ui)
    (hlow : strTrim (strLower ui) = "show yourself") :
    (execute_chat_command true em showOk stream lf p c).modelCalled = false ∧
    (∃ m, (execute_chat_command true em showOk stream lf p c).written =
      [generate_message_response m]) ∧
    (execute_chat_command true em showOk stream lf p c).ret =
      generate_success_response none := by
  have hui : ui ≠ "" := by
    intro hc; rw [hc] at hlow; exact absurd hlow (by decide)
  have htrim : strTrim ui ≠ "" := by
    intro hc
    have h3 := strTrim_strLower_of_strTrim_empty ui hc
    rw [hlow] at h3
    exact absurd h3 (by decide)
  have hshow : strTrim (strLower ui) ∈ SHOW_PHRASES := by
    rw [hlow]; decide
  rw [execute_chat_command_show em showOk stream lf p c ui hres hui htrim hshow]
  exact ⟨rfl, ⟨_, rfl⟩, rfl⟩

/-- Witness for C3: the literal phrase "show yourself" as plain-text
parameters, with a configured client. -/
theorem C3_witness :
    (execute_chat_command true "e" true ["x"] none
      (some (.pstr "show yourself")) none).modelCalled = false ∧
    (∃ m, (execute_chat_command true "e" true ["x"] none
      (some (.pstr "show yourself")) none).written = [generate_message_response m]) ∧
    (execute_chat_command true "e" true ["x"] none
      (some (.pstr "show yourself")) none).ret = generate_success_response none :=
  C3_theorem "e" true ["x"] none (some (.pstr "show yourself")) none
    "show yourself" (by decide) (by decide)

/-- Claim C8 (amended): the user message is resolved as (a) plain-text
parameters when non-empty; (b) the value of the first matching
recognized key when that value is non-empty; (c) the first value of the
mapping when no recognized key matches or the matched value is empty;
(d) the content of the last conversation-context entry when the
params-derived value is falsy; and an input left falsy or
whitespace-only after all fallbacks produces a failure response with no
responses written and no remote call attempted. -/
theorem C8_theorem :
    (∀ (s : String) (c : Option Ctx), s ≠ "" →
      resolve_user_input (some (.pstr s)) c = some s) ∧
    (∀ (kvs : List (String × String)) (c : Option Ctx) (v : String),
      kvs ≠ [] → firstRecognizedValue kvs = some v → v ≠ "" →
      resolve_user_input (some (.pdict kvs)) c = some v) ∧
    (∀ (kvs : List (String × String)) (c : Option Ctx) (v : String),
      kvs ≠ [] →
      (firstRecognizedValue kvs = none ∨ firstRecognizedValue kvs = some "") →
      kvs.head?.map (·.2) = some v → v ≠ "" →
      resolve_user_input (some (.pdict kvs)) c = some v) ∧
    (∀ (p : Option Params) (ctx : Ctx) (content : String),
      pyTruthy (params_user_input p) = false → ctx.getLast? = some (some content) →
      resolve_user_input p (some ctx) = some content) ∧
    (∀ (em : String) (showOk : Bool) (stream : List String) (lf : Option String)
      (p : Option Params) (c : Option Ctx),
      pyTruthy (resolve_user_input p c) = false →
      execute_chat_command true em showOk stream lf p c =
        ⟨[], generate_failure_response
          (some "No message provided - DEBUG MODE ACTIVE, check aria_plugin.log"),
         false, lf⟩) ∧
    (∀ (em : String) (showOk : Bool) (stream : List String) (lf : Option String)
      (p : Option Params) (c : Option Ctx) (u : String),
      resolve_user_input p c = some u → u ≠ "" → strTrim u = "" →
      execute_chat_command true em showOk stream lf p c =
        ⟨[], generate_failure_response (some "Empty user message"), false, lf⟩) := by
  refine ⟨?_, ?_, ?_, ?_, ?_, ?_⟩
  · intro s c h
    simp [resolve_user_input, params_user_input, h, pyTruthy]
  · intro kvs c v hk hv hv2
    simp [resolve_user_input, params_user_input, hk, hv, hv2, pyTruthy]
  · intro kvs c v hk hfr hh hv
    rcases hfr with hfr | hfr <;>
      simp [resolve_user_input, params_user_input, hk, hfr, hh, hv, pyTruthy]
  · intro p ctx content hp hlast
    have hne : ctx ≠ [] := by intro he; rw [he] at hlast; simp at hlast
    simp [resolve_user_input, hp, hne, hlast]
  · intro em showOk stream lf p c h
    simp [execute_chat_command, h]
  · intro em showOk stream lf p c u h1 h2 h3
    simp [execute_chat_command, h1, pyTruthy, h2, h3]

/-- Witness for C8: one concrete instance of each fallback and of both
failure paths. -/
theorem C8_witness :
    resolve_user_input (some (.pstr "hello")) none = some "hello" ∧
    resolve_user_input (some (.pdict [("message", "hi there")])) none = some "hi there" ∧
    resolve_user_input (some (.pdict [("foo", "bar"), ("message", "")])) none = some "bar" ∧
    resolve_user_input none (some [some "from context"]) = some "from context" ∧
    execute_chat_command true "e" true [] none none none =
      ⟨[], generate_failure_response
        (some "No message provided - DEBUG MODE ACTIVE, check aria_plugin.log"),
       false, none⟩ ∧
    execute_chat_command true "e" true [] none (some (.pstr "   ")) none =
      ⟨[], generate_failure_response (some "Empty user message"), false, none⟩ :=
  ⟨C8_theorem.1 "hello" none (by decide),
   C8_theorem.2.1 [("message", "hi there")] none "hi there" (by decide) (by decide) (by decide),
   C8_theorem.2.2.1 [("foo", "bar"), ("message", "")] none "bar" (by decide)
     (Or.inr (by decide)) (by decide) (by decide),
   C8_theorem.2.2.2.1 none [some "from context"] "from context" (by decide) (by decide),
   C8_theorem.2.2.2.2.1 "e" true [] none none none (by decide),
   C8_theorem.2.2.2.2.2 "e" true [] none (some (.pstr "   ")) none "   "
     (by decide) (by decide) (by decide)⟩

/-- The start-of-chunk test of the tight join, reduced to the chunk's
first character. -/
theorem strStartsWith_char (b : String) (ch : Char) :
    strStartsWith b ⟨[ch]⟩ = decide (b.data.head? = some ch) := by
  cases b with
  | mk l =>
      cases l with
      | nil => simp [strStartsWith]
      | cons c cs => simp [strStartsWith, List.cons_prefix_cons, eq_comm]

/-- Specialization of `strStartsWith_char` to `"!"`. -/
theorem strStartsWith_bang (b : String) :
    strStartsWith b "!" = decide (b.data.head? = some '!') := strStartsWith_char b '!'

/-- Specialization of `strStartsWith_char` to `"?"`. -/
theorem strStartsWith_question (b : String) :
    strStartsWith b "?" = decide (b.data.head? = some '?') := strStartsWith_char b '?'

/-- Specialization of `strStartsWith_char` to `"."`. -/
theorem strStartsWith_dot (b : String) :
    strStartsWith b "." = decide (b.data.head? = some '.') := strStartsWith_char b '.'

/-- Specialization of `strStartsWith_char` to `","`. -/
theorem strStartsWith_comma (b : String) :
    strStartsWith b "," = decide (b.data.head? = some ',') := strStartsWith_char b ','

/-- Specialization of `strStartsWith_char` to `"~"`. -/
theorem strStartsWith_tilde (b : String) :
    strStartsWith b "~" = decide (b.data.head? = some '~') := strStartsWith_char b '~'

/-- Specialization of `strStartsWith_char` to `"^"`. -/
theorem strStartsWith_caret (b : String) :
    strStartsWith b "^" = decide (b.data.head? = some '^') := strStartsWith_char b '^'

/-- Specialization of `strStartsWith_char` to `"_"`. -/
theorem strStartsWith_underscore (b : String) :
    strStartsWith b "_" = decide (b.data.head? = some '_') := strStartsWith_char b '_'

/-- Specialization of `strStartsWith_char` to `" "`. -/
theorem strStartsWith_space (b : String) :
    strStartsWith b " " = decide (b.data.head? = some ' ') := strStartsWith_char b ' '

/-- The exact character set that makes the join tight from the chunk
side (canvas_overlay.py line 308). -/
def TIGHT_CHARS : List Char := ['!', '?', '.', ',', '~', '^', '_', ' ']

/-- The tight-join test holds exactly when the chunk's first character
is one of `! ? . , ~ ^ _ Space` or the accumulated string ends with a
space. -/
theorem tightJoin_iff (a b : String) :
    tightJoin a b = true ↔
      (∃ c ∈ TIGHT_CHARS, b.data.head? = some c) ∨ strEndsWith a " " = true := by
  unfold tightJoin
  simp [strStartsWith_bang, strStartsWith_question, strStartsWith_dot,
    strStartsWith_comma, strStartsWith_tilde, strStartsWith_caret,
    strStartsWith_underscore, strStartsWith_space, TIGHT_CHARS, Bool.or_eq_true]
  tauto

/-- Claim C5 (amended): flushing joins the buffered chunks, inserting a
single space between adjacent chunks unless the next chunk starts with
one of the characters `! ? . , ~ ^ _` or a space, or the accumulated
string ends with a space (then the join is tight) — other punctuation
and other whitespace characters still get a space; the chunk sequence
["Hello", "!", " there"] flushes to "Hello! there". -/
theorem C5_theorem :
    completeResponse ["Hello", "!", " there"] = "Hello! there" ∧
    (∀ a b : String,
      joinStep a b =
        if (∃ c ∈ TIGHT_CHARS, b.data.head? = some c) ∨ strEndsWith a " " = true
        then a ++ b else a ++ " " ++ b) := by
  refine ⟨by decide, ?_⟩
  intro a b
  unfold joinStep
  by_cases h : tightJoin a b = true
  · rw [if_pos h, if_pos ((tightJoin_iff a b).mp h)]
  · rw [if_neg (by simpa using h), if_neg (fun hc => h ((tightJoin_iff a b).mpr hc))]

/-- Claim C6: emotion selection is first-match-wins over the fixed
priority table anger > sadness > greeting > happiness > chunk-tag >
idle, and a log tail containing both an anger word and a happiness word
selects the anger frame (2). -/
theorem C6_theorem :
    (∀ s : String, emotionFrame s = firstMatchFrame s) ∧
    containsAny (recentLinesOf ["aria: HATE this\n", "aria: happy win\n"]) angerWords = true ∧
    containsAny (recentLinesOf ["aria: HATE this\n", "aria: happy win\n"]) happyWords = true ∧
    emotionFrame (recentLinesOf ["aria: HATE this\n", "aria: happy win\n"]) = 2 := by
  refine ⟨?_, by decide, by decide, by decide⟩
  intro s
  unfold emotionFrame firstMatchFrame emotionPriority
  cases hA : containsAny s angerWords <;> cases hS : containsAny s sadWords <;>
    cases hG : containsAny s greetWords <;> cases hH : containsAny s happyWords <;>
    cases hC : strContains s "response chunk" <;>
    simp [List.find?, hA, hS, hG, hH, hC]

end Aria
